import Mathlib

/-!
Verification development for the FTMS integration
(`custom_components/ftms`): a shallow embedding of the coordinator
(`coordinator.py`), the setup connect path and disconnect handler
(`__init__.py`), the standalone connect helper (`connect.py`) and the
sensor platform (`sensor.py`), together with theorems about their
behaviour.

External collaborators (the `pyftms` client, the bleak transport, the
Home Assistant framework) are modelled at their boundary: every fallible
external call is represented by an explicit outcome value that the
embedded function receives as an argument, so the embedding covers every
possible success/failure interleaving of the collaborators.
-/

namespace Ftms

/-- Python's per-character `str.lower()`. -/
def pyLower (s : String) : String := ⟨s.toList.map Char.toLower⟩

/-- `startsWithList pat l` is true when `pat` is an initial segment of `l`. -/
def startsWithList : List Char → List Char → Bool
  | [], _ => true
  | _ :: _, [] => false
  | p :: ps, c :: cs => (p == c) && startsWithList ps cs

/-- Python's `pat in s` substring test, on character lists. -/
def hasSubstringList (pat : List Char) : List Char → Bool
  | [] => startsWithList pat []
  | c :: cs => startsWithList pat (c :: cs) || hasSubstringList pat cs

/-- The soft-error test both `__init__.py` and `coordinator.py` perform:
`"BleakCharacteristicNotFoundError" in str(exc)`. -/
def hasCharNotFound (msg : String) : Bool :=
  hasSubstringList "BleakCharacteristicNotFoundError".toList msg.toList

/-! ## coordinator.py -/

/-- Model of a `pyftms.FtmsEvents` telemetry snapshot: a mapping from
metric key to value. `FtmsEvents()` (the empty default) is `⟨[]⟩`. -/
structure FtmsEvents where
  fields : List (String × Int)
deriving DecidableEq, Repr

/-- The empty default snapshot `FtmsEvents()`. -/
def FtmsEvents.default : FtmsEvents := ⟨[]⟩

/-- The mutable state of `DataCoordinator`: the `_connected` flag and the
`_last_event` cache. -/
structure CoordinatorState where
  connected : Bool
  last_event : Option FtmsEvents
deriving DecidableEq, Repr

/-- `DataCoordinator.__init__`: `self._connected = False`,
`self._last_event = None`. -/
def initCoordinator : CoordinatorState := ⟨false, none⟩

/-- Outcome of a fallible external call (`ftms.connect()` /
`ftms.disconnect()`) as observed by the coordinator, which catches every
exception: either it returns, or it raises with some message. -/
inductive CallOutcome where
  | ok
  | err (msg : String)
deriving DecidableEq, Repr

/-- `DataCoordinator._on_ftms_event`: cache the pushed event, mark
connected, publish. -/
def on_ftms_event (s : CoordinatorState) (data : FtmsEvents) : CoordinatorState :=
  { s with last_event := some data, connected := true }

/-- The tail of `DataCoordinator._async_update_data`: the inner
`try/finally`. The `try` computes the return value
(`self._last_event` if set, else `FtmsEvents()`); the `finally` calls
`ftms.disconnect()` (its error swallowed, so `discOutcome` is ignored)
and sets `self._connected = False`. -/
def updateTail (s : CoordinatorState) (discOutcome : CallOutcome) :
    CoordinatorState × FtmsEvents :=
  match discOutcome with
  | .ok => ({ s with connected := false }, s.last_event.getD FtmsEvents.default)
  | .err _ => ({ s with connected := false }, s.last_event.getD FtmsEvents.default)

/-- `DataCoordinator._async_update_data`. If `_connected` is false it
attempts `ftms.connect()`: on success it sets `_connected = True`; on an
exception whose text contains `BleakCharacteristicNotFoundError` it also
sets `_connected = True` (soft success); on any other exception it
returns `self._last_event or FtmsEvents()` early. It then runs the inner
`try/finally` (`updateTail`). The outer `except Exception` also returns
`self._last_event or FtmsEvents()`, so the function never raises. -/
def async_update_data (s : CoordinatorState)
    (connectOutcome discOutcome : CallOutcome) :
    CoordinatorState × FtmsEvents :=
  if !s.connected then
    match connectOutcome with
    | .ok => updateTail { s with connected := true } discOutcome
    | .err msg =>
      if hasCharNotFound msg then
        updateTail { s with connected := true } discOutcome
      else
        (s, s.last_event.getD FtmsEvents.default)
  else
    updateTail s discOutcome

/-- `DataCoordinator.connection_lost`: if `_connected`, set it to false;
otherwise do nothing. `_last_event` is untouched. -/
def connection_lost (s : CoordinatorState) : CoordinatorState :=
  if s.connected then { s with connected := false } else s

/-- `DataCoordinator.is_connected`. -/
def is_connected (s : CoordinatorState) : Bool := s.connected

/-! ## __init__.py : setup connect path -/

/-- Outcome of `asyncio.wait_for(ftms.connect(), timeout=10.0)` in
`async_setup_entry`: success, timeout, or a `BleakError` with a message. -/
inductive ConnectOutcome where
  | ok
  | timeout
  | bleakError (msg : String)
deriving DecidableEq, Repr

/-- Result of the connect block of `async_setup_entry`: either setup
proceeds (with `softWarning = true` when a missing-characteristic
warning was logged), or it raises `ConfigEntryNotReady` with the given
translation key. -/
inductive SetupResult where
  | proceed (softWarning : Bool)
  | notReady (translation_key : String)
deriving DecidableEq, Repr

/-- The `try/except` around `asyncio.wait_for(ftms.connect(), timeout=10.0)`
in `async_setup_entry`: `asyncio.TimeoutError` raises
`ConfigEntryNotReady(translation_key="connection_timeout")`; a
`BleakError` whose text contains `BleakCharacteristicNotFoundError` is
downgraded to a warning and setup proceeds; any other `BleakError`
raises `ConfigEntryNotReady(translation_key="connection_failed")`. -/
def setupConnect (o : ConnectOutcome) : SetupResult :=
  match o with
  | .ok => .proceed false
  | .timeout => .notReady "connection_timeout"
  | .bleakError msg =>
    if hasCharNotFound msg then .proceed true
    else .notReady "connection_failed"

/-! ## __init__.py : _on_disconnect debounce -/

/-- State relevant to the `_on_disconnect` handler of one setup call
(one connection session): the ad-hoc `reload_scheduled` attribute on the
handler function, the time at which the single pending `delayed_reload`
task will fire (task creation time + the fixed `asyncio.sleep(5)`), how
many `delayed_reload` tasks were ever created, and the coordinator
state. -/
structure DisconnectState where
  reload_scheduled : Bool
  fire_at : Option Nat
  scheduled_count : Nat
  coord : CoordinatorState
deriving DecidableEq, Repr

/-- Session-initial handler state: the `reload_scheduled` attribute does
not exist on the freshly defined `_on_disconnect`, no task pending. -/
def initDisconnectState (c : CoordinatorState) : DisconnectState :=
  ⟨false, none, 0, c⟩

/-- `_on_disconnect`, called at time `t` with the client's
`need_connect` flag and `hass.is_running`. When both hold it calls
`coordinator.connection_lost()`; then, only if the `reload_scheduled`
attribute is absent, it sets the attribute and creates one
`delayed_reload` task, which fires `5` time units later. While the
attribute is set, further notifications schedule nothing. -/
def on_disconnect (need_connect running : Bool) (t : Nat)
    (s : DisconnectState) : DisconnectState :=
  if need_connect && running then
    let s1 := { s with coord := connection_lost s.coord }
    if s1.reload_scheduled then s1
    else { s1 with
      reload_scheduled := true
      fire_at := some (t + 5)
      scheduled_count := s1.scheduled_count + 1 }
  else s

/-- The `finally: delattr(_on_disconnect, "reload_scheduled")` when a
`delayed_reload` task finishes: the debounce flag is cleared. -/
def delayed_reload_done (s : DisconnectState) : DisconnectState :=
  { s with reload_scheduled := false, fire_at := none }

/-! ## __init__.py : unique id -/

/-- The unique-id computation in `async_setup_entry`:
`"".join(x for x in ftms.device_info.get("serial_number", address) if x.isalnum()).lower()`. -/
def uniqueId (serial_number : Option String) (address : String) : String :=
  pyLower ⟨(serial_number.getD address).toList.filter Char.isAlphanum⟩

/-- `a` and `b` are the same letter up to case, position by position. -/
def eqUpToCase : List Char → List Char → Bool
  | [], [] => true
  | a :: as, b :: bs => (a.toLower == b.toLower) && eqUpToCase as bs
  | _, _ => false

/-- Two strings differ only in case or punctuation: after dropping their
non-alphanumeric characters, they agree position by position up to
letter case. -/
def differOnlyInCaseOrPunct (s t : String) : Bool :=
  eqUpToCase (s.toList.filter Char.isAlphanum) (t.toList.filter Char.isAlphanum)

/-! ## connect.py -/

/-- Outcome of the bare `ftms.connect()` call inside `ftms_connect`:
success, a `BleakError`, or any other exception (which `ftms_connect`
does not catch). -/
inductive FtmsConnectOutcome where
  | ok
  | bleakError (msg : String)
  | otherError (msg : String)
deriving DecidableEq, Repr

/-- Result of `ftms_connect`: normal return, a raised
`ConfigEntryNotReady` with its translation key and the address
placeholder, or an uncaught exception propagating unchanged. -/
inductive FtmsConnectResult where
  | ok
  | notReady (translation_key : String) (address : String)
  | raised (msg : String)
deriving DecidableEq, Repr

/-- `ftms_connect` (connect.py): awaits `ftms.connect()` with no
timeout; only `BleakError` is caught, and every `BleakError` — with no
inspection of its message — is re-raised as
`ConfigEntryNotReady(translation_key="connection_failed",
translation_placeholders={"address": ftms.address})`. -/
def ftms_connect (o : FtmsConnectOutcome) (address : String) :
    FtmsConnectResult :=
  match o with
  | .ok => .ok
  | .bleakError _ => .notReady "connection_failed" address
  | .otherError msg => .raised msg

/-! ## sensor.py -/

/-- The keys of the `SENSOR_DESCRIPTIONS` dict (the duplicate
`"cadence"` literal in the source collapses to one dict key). -/
def SENSOR_DESCRIPTIONS_keys : List String :=
  ["speed_instant", "speed_average", "speed_maximum", "distance_total",
   "cadence", "cadence_average", "cadence_maximum", "energy_total",
   "energy_per_hour", "power_output", "time_elapsed", "time_remaining",
   "heart_rate", "step_count", "inclination", "elevation_gain",
   "training_status"]

/-- Observable result of `sensor.async_setup_entry`: the keys of the
entities created, the keys warned about, and whether setup completed
(it has no failing path). -/
structure SensorSetupResult where
  entities : List String
  warnings : List String
  setup_ok : Bool
deriving DecidableEq, Repr

/-- `sensor.async_setup_entry`: for each configured key, create an
entity when `SENSOR_DESCRIPTIONS.get(sensor_key)` finds a description,
otherwise log `Unknown sensor type` — then add the entities. It never
raises. -/
def sensor_setup (sensors : List String) : SensorSetupResult :=
  sensors.foldl
    (fun acc k =>
      if SENSOR_DESCRIPTIONS_keys.contains k then
        { acc with entities := acc.entities ++ [k] }
      else
        { acc with warnings := acc.warnings ++ [k] })
    ⟨[], [], true⟩

/-- A raw attribute value as `getattr(self.ftms, self.key, None)` can
produce it: numeric, string, or an `Enum` member with a symbolic name. -/
inductive RawValue where
  | num (n : Int)
  | str (s : String)
  | enum (name : String)
deriving DecidableEq, Repr

/-- What reading the attribute does: `getattr` returns its `None`
default (attribute missing), returns a value, or raises (a property
raised; caught by the handler's `except`). -/
inductive AttrFetch where
  | missing
  | value (v : RawValue)
  | raised (msg : String)
deriving DecidableEq, Repr

/-- A resolved `_attr_native_value`: `none` is Python `None` (absent). -/
inductive Resolved where
  | num (n : Int)
  | str (s : String)
deriving DecidableEq, Repr

/-- `FtmsSensorEntity._update_value`, given the previous
`_attr_native_value`: in the `try`, fetch the attribute (missing ⇒
`None`), normalize an `Enum` via `value.name.lower()`, and assign; the
`except` logs at debug level and leaves `_attr_native_value` unchanged.
Never raises. -/
def update_value (prev : Option Resolved) (fetch : AttrFetch) :
    Option Resolved :=
  match fetch with
  | .missing => none
  | .value (.num n) => some (.num n)
  | .value (.str s) => some (.str s)
  | .value (.enum name) => some (.str (pyLower name))
  | .raised _ => prev

/-! ## Helper lemmas -/

/-- `connection_lost` always yields the disconnected state with the same
cache, whether or not the flag was set. -/
theorem connection_lost_eq (s : CoordinatorState) :
    connection_lost s = ⟨false, s.last_event⟩ := by
  cases s with
  | mk c l => cases c <;> simp [connection_lost]

theorem connection_lost_idem (s : CoordinatorState) :
    connection_lost (connection_lost s) = connection_lost s := by
  rw [connection_lost_eq, connection_lost_eq]

theorem connection_lost_iterate (n : Nat) (s : CoordinatorState) :
    connection_lost^[n + 1] s = connection_lost s := by
  induction n generalizing s with
  | zero => rfl
  | succ k ih =>
    rw [Function.iterate_succ_apply, ih, connection_lost_idem]

/-- Once the debounce flag is set, any further run of `on_disconnect`
leaves the flag, the pending fire time and the task count unchanged. -/
theorem on_disconnect_pending_preserved (ts : List Nat) :
    ∀ s : DisconnectState, s.reload_scheduled = true →
      ((ts.foldl (fun a u => on_disconnect true true u a) s).reload_scheduled = true ∧
       (ts.foldl (fun a u => on_disconnect true true u a) s).fire_at = s.fire_at ∧
       (ts.foldl (fun a u => on_disconnect true true u a) s).scheduled_count
         = s.scheduled_count) := by
  induction ts with
  | nil => intro s h; exact ⟨h, rfl, rfl⟩
  | cons u us ih =>
    intro s h
    have hstep : on_disconnect true true u s =
        { s with coord := connection_lost s.coord } := by
      simp [on_disconnect, h]
    simp only [List.foldl_cons, hstep]
    exact ih _ h

theorem eqUpToCase_map (l₁ : List Char) :
    ∀ l₂ : List Char, eqUpToCase l₁ l₂ = true →
      l₁.map Char.toLower = l₂.map Char.toLower := by
  induction l₁ with
  | nil => intro l₂ h; cases l₂ with
    | nil => rfl
    | cons b bs => simp [eqUpToCase] at h
  | cons a as ih =>
    intro l₂ h
    cases l₂ with
    | nil => simp [eqUpToCase] at h
    | cons b bs =>
      simp only [eqUpToCase, Bool.and_eq_true, beq_iff_eq] at h
      simp [List.map_cons, h.1, ih bs h.2]

/-- The `foldl` loop of `sensor_setup`, characterized by filters of the
input list. -/
theorem sensor_setup_foldl (sensors : List String) :
    ∀ (e w : List String) (b : Bool),
      sensors.foldl
        (fun (acc : SensorSetupResult) k =>
          if SENSOR_DESCRIPTIONS_keys.contains k then
            { acc with entities := acc.entities ++ [k] }
          else
            { acc with warnings := acc.warnings ++ [k] })
        ⟨e, w, b⟩ =
      (⟨e ++ sensors.filter (fun k => SENSOR_DESCRIPTIONS_keys.contains k),
        w ++ sensors.filter (fun k => !SENSOR_DESCRIPTIONS_keys.contains k),
        b⟩ : SensorSetupResult) := by
  induction sensors with
  | nil => intro e w b; simp
  | cons k ks ih =>
    intro e w b
    cases hk : SENSOR_DESCRIPTIONS_keys.contains k <;>
      simp only [List.foldl_cons, List.filter_cons, hk, Bool.not_true,
        Bool.not_false, if_true, if_false, ite_true, ite_false] <;>
      rw [ih] <;> simp

theorem sensor_setup_eq (sensors : List String) :
    sensor_setup sensors =
      ⟨sensors.filter (fun k => SENSOR_DESCRIPTIONS_keys.contains k),
       sensors.filter (fun k => !SENSOR_DESCRIPTIONS_keys.contains k),
       true⟩ := by
  have h := sensor_setup_foldl sensors [] [] true
  simpa [sensor_setup] using h

/-! ## Claim theorems -/

/-- C1 (counterexample). The claim says a poll cycle that starts
disconnected and whose connect succeeds leaves `is_connected()` true.
At the concrete state (disconnected, cached event `{power: 120}`) with a
successful connect and disconnect, `is_connected()` is false after the
cycle: the `finally` block of `_async_update_data` disconnects and
clears the flag before the cycle returns. -/
theorem C1_poll_cycle_counterexample :
    ¬ (is_connected
        (async_update_data ⟨false, some ⟨[("power", 120)]⟩⟩
          CallOutcome.ok CallOutcome.ok).1 = true) := by
  decide

/-- C1 (amended). For every poll cycle of `_async_update_data` that
starts disconnected and whose connect attempt succeeds (or fails only
with a soft missing-characteristic error), `is_connected()` is false
after the cycle completes — the coordinator marks itself connected
during the cycle but its `finally` block disconnects and clears the
flag — and the snapshot returned is the latest cached event (the empty
default when none is cached). -/
theorem C1_poll_cycle_soft_success (s : CoordinatorState)
    (c d : CallOutcome) (hdis : s.connected = false)
    (hok : c = CallOutcome.ok ∨
      ∃ m, c = CallOutcome.err m ∧ hasCharNotFound m = true) :
    is_connected (async_update_data s c d).1 = false ∧
    (async_update_data s c d).2 = s.last_event.getD FtmsEvents.default := by
  rcases hok with h | ⟨m, hm, hsoft⟩
  · subst h
    cases d <;>
      simp [async_update_data, updateTail, is_connected, hdis]
  · subst hm
    cases d <;>
      simp [async_update_data, updateTail, is_connected, hdis, hsoft]

/-- C1 (witness): the amended theorem at the concrete state
(disconnected, cached `{power: 120}`), connect and disconnect both
succeeding. -/
theorem C1_poll_cycle_soft_success_witness :
    is_connected
      (async_update_data ⟨false, some ⟨[("power", 120)]⟩⟩
        CallOutcome.ok CallOutcome.ok).1 = false ∧
    (async_update_data ⟨false, some ⟨[("power", 120)]⟩⟩
        CallOutcome.ok CallOutcome.ok).2 = ⟨[("power", 120)]⟩ :=
  C1_poll_cycle_soft_success ⟨false, some ⟨[("power", 120)]⟩⟩
    CallOutcome.ok CallOutcome.ok rfl (Or.inl rfl)

/-- C2 (counterexample). The claim says the entities created at setup
are a subset of the device's capability set. With a device that reports
no keys at all (capability set `[]`) and the configured selection
`["heart_rate"]`, `sensor.async_setup_entry` still creates the
`heart_rate` entity — the code filters only against the static
`SENSOR_DESCRIPTIONS` catalog and never consults the device's
capability set. -/
theorem C2_sensor_setup_counterexample :
    "heart_rate" ∈ (sensor_setup ["heart_rate"]).entities ∧
    "heart_rate" ∉ ([] : List String) := by
  decide

/-- C2 (amended). For every configured selection of sensor keys, the
set of entities created by `sensor.async_setup_entry` is a subset of
the static `SENSOR_DESCRIPTIONS` catalog (not of the device's
capability set); every selected key not in the catalog is dropped with
a logged `Unknown sensor type` warning; and setup always completes,
never failing. -/
theorem C2_sensor_setup_filters_catalog :
    (∀ (sensors : List String) (k : String),
      k ∈ (sensor_setup sensors).entities → k ∈ SENSOR_DESCRIPTIONS_keys) ∧
    (∀ (sensors : List String) (k : String),
      k ∈ sensors → k ∉ SENSOR_DESCRIPTIONS_keys →
        k ∈ (sensor_setup sensors).warnings) ∧
    (∀ sensors : List String, (sensor_setup sensors).setup_ok = true) := by
  refine ⟨?_, ?_, ?_⟩
  · intro sensors k hk
    rw [sensor_setup_eq] at hk
    simp only [List.mem_filter] at hk
    simpa using hk.2
  · intro sensors k hk hnot
    rw [sensor_setup_eq]
    simp only [List.mem_filter]
    exact ⟨hk, by simpa using hnot⟩
  · intro sensors
    rw [sensor_setup_eq]

/-- C2 (witness): the amended theorem at selection
`["power_output", "bogus_key"]` — the created `power_output` entity is
in the catalog, the unknown `bogus_key` lands in the warnings, and
setup completes. -/
theorem C2_sensor_setup_filters_catalog_witness :
    "power_output" ∈ SENSOR_DESCRIPTIONS_keys ∧
    "bogus_key" ∈ (sensor_setup ["power_output", "bogus_key"]).warnings ∧
    (sensor_setup ["power_output", "bogus_key"]).setup_ok = true :=
  ⟨C2_sensor_setup_filters_catalog.1 ["power_output", "bogus_key"]
      "power_output" (by decide),
   C2_sensor_setup_filters_catalog.2.1 ["power_output", "bogus_key"]
      "bogus_key" (by decide) (by decide),
   C2_sensor_setup_filters_catalog.2.2 ["power_output", "bogus_key"]⟩

/-- C3. For every sequence of unexpected-disconnect notifications
(`need_connect` and `hass.is_running` both true) delivered within one
connection session, starting from the session-initial handler state:
exactly one `delayed_reload` task is ever created, and it fires 5 time
units after the first notification — every later notification in the
sequence schedules nothing. -/
theorem C3_disconnect_debounce (c : CoordinatorState) (t : Nat)
    (ts : List Nat) :
    ((t :: ts).foldl (fun a u => on_disconnect true true u a)
        (initDisconnectState c)).scheduled_count = 1 ∧
    ((t :: ts).foldl (fun a u => on_disconnect true true u a)
        (initDisconnectState c)).fire_at = some (t + 5) := by
  have hfirst : on_disconnect true true t (initDisconnectState c) =
      ⟨true, some (t + 5), 1, connection_lost c⟩ := by
    simp [on_disconnect, initDisconnectState]
  have h := on_disconnect_pending_preserved ts
    ⟨true, some (t + 5), 1, connection_lost c⟩ rfl
  simp only [List.foldl_cons, hfirst]
  exact ⟨h.2.2, h.2.1⟩

/-- C4. For every connect attempt during setup that raises a
`BleakError`: when the message contains
`BleakCharacteristicNotFoundError`, setup logs a warning and proceeds
(soft success); for any other `BleakError`, setup raises
`ConfigEntryNotReady(translation_key="connection_failed")` and does not
proceed. -/
theorem C4_setup_bleak_classification (msg : String) :
    (hasCharNotFound msg = true →
      setupConnect (.bleakError msg) = .proceed true) ∧
    (hasCharNotFound msg = false →
      setupConnect (.bleakError msg) = .notReady "connection_failed") := by
  constructor <;> intro h <;> simp [setupConnect, h]

/-- C4 (witness): both branches of the classification at concrete
messages. -/
theorem C4_setup_bleak_classification_witness :
    hasCharNotFound "exc BleakCharacteristicNotFoundError raised" = true ∧
    setupConnect (.bleakError "exc BleakCharacteristicNotFoundError raised")
      = .proceed true ∧
    hasCharNotFound "device turned off" = false ∧
    setupConnect (.bleakError "device turned off")
      = .notReady "connection_failed" :=
  ⟨by decide,
   (C4_setup_bleak_classification
      "exc BleakCharacteristicNotFoundError raised").1 (by decide),
   by decide,
   (C4_setup_bleak_classification "device turned off").2 (by decide)⟩

/-- C5. The setup connect block raises
`ConfigEntryNotReady(translation_key="connection_timeout")` exactly when
the 10-second `asyncio.wait_for` budget is exceeded — on a timeout it
fails with this key and no other error kind, and no other outcome
produces this key. -/
theorem C5_setup_timeout (o : ConnectOutcome) :
    setupConnect o = .notReady "connection_timeout" ↔ o = .timeout := by
  cases o with
  | ok => simp [setupConnect]
  | timeout => simp [setupConnect]
  | bleakError msg =>
    simp only [setupConnect]
    constructor
    · intro h
      split at h <;> simp_all
    · intro h
      exact absurd h (by simp)

/-- C6. For every coordinator state and every outcome of the external
connect and disconnect calls — including connect failure and disconnect
failure — `_async_update_data` returns a value (it is a total function
of the state and outcomes, so it never raises), and that value is the
last cached event when one exists and the empty default snapshot
otherwise, never an absent result. -/
theorem C6_update_data_total (s : CoordinatorState)
    (c d : CallOutcome) :
    (async_update_data s c d).2 = s.last_event.getD FtmsEvents.default := by
  cases s with
  | mk conn le =>
    cases conn <;> cases c <;> cases d <;>
      simp only [async_update_data, updateTail, Bool.not_false,
        Bool.not_true, if_true, if_false, ite_true, ite_false] <;>
      first
        | rfl
        | (split <;> rfl)

/-- C7. `connection_lost()` is idempotent: one call makes
`is_connected()` false; iterating it `n + 1` times equals calling it
once (so N > 1 calls in a row produce exactly one state change); and no
call to it modifies or clears the cached snapshot. -/
theorem C7_connection_lost_idempotent (s : CoordinatorState) :
    is_connected (connection_lost s) = false ∧
    (∀ n : Nat, connection_lost^[n + 1] s = connection_lost s) ∧
    (connection_lost s).last_event = s.last_event := by
  refine ⟨?_, fun n => connection_lost_iterate n s, ?_⟩
  · rw [connection_lost_eq]; rfl
  · rw [connection_lost_eq]

/-- C8 (counterexample). The claim says a resolved value is absent
whenever the attribute read errors. At the concrete previous value `5`
with an attribute read that raises, `_update_value` keeps the stale
previous value instead of unsetting it: the `except` branch only logs
and never assigns `_attr_native_value`. -/
theorem C8_update_value_counterexample :
    update_value (some (.num 5)) (.raised "boom") = some (.num 5) ∧
    update_value (some (.num 5)) (.raised "boom") ≠ none := by
  decide

/-- C8 (amended). Resolving a sensor value never raises to the caller
(`update_value` is a total function of the previous value and the fetch
outcome): a raw `Enum` value is normalized to its lowercase symbolic
member name, a missing attribute resolves to absent (`None`), and when
the attribute read raises, the failure is only logged at debug level
and the previous resolved value is retained unchanged (not unset). -/
theorem C8_update_value_resolution (prev : Option Resolved) :
    update_value prev .missing = none ∧
    (∀ name, update_value prev (.value (.enum name))
      = some (.str (pyLower name))) ∧
    (∀ n, update_value prev (.value (.num n)) = some (.num n)) ∧
    (∀ v, update_value prev (.value (.str v)) = some (.str v)) ∧
    (∀ msg, update_value prev (.raised msg) = prev) := by
  exact ⟨rfl, fun _ => rfl, fun _ => rfl, fun _ => rfl, fun _ => rfl⟩

/-- C9. The unique id of `async_setup_entry` is a pure function of the
reported serial number when present (the configured address is then
irrelevant) and of the address otherwise: it keeps exactly the
alphanumeric characters of that string, lowercased; and two serial
numbers that differ only in letter case or punctuation yield the same
unique id. -/
theorem C9_uniqueId_normalization :
    (∀ (s a₁ a₂ : String), uniqueId (some s) a₁ = uniqueId (some s) a₂) ∧
    (∀ (s a : String), (uniqueId (some s) a).toList
      = (s.toList.filter Char.isAlphanum).map Char.toLower) ∧
    (∀ a : String, (uniqueId none a).toList
      = (a.toList.filter Char.isAlphanum).map Char.toLower) ∧
    (∀ (s t a₁ a₂ : String), differOnlyInCaseOrPunct s t = true →
      uniqueId (some s) a₁ = uniqueId (some t) a₂) := by
  refine ⟨fun s a₁ a₂ => rfl, fun s a => rfl, fun a => rfl, ?_⟩
  intro s t a₁ a₂ h
  have hmap := eqUpToCase_map (s.toList.filter Char.isAlphanum)
    (t.toList.filter Char.isAlphanum) h
  show String.mk ((s.toList.filter Char.isAlphanum).map Char.toLower)
    = String.mk ((t.toList.filter Char.isAlphanum).map Char.toLower)
  rw [hmap]

/-- C9 (witness): the serials `SN-123A` and `sn.123a` differ only in
case and punctuation and receive the same unique id, independently of
the address argument. -/
theorem C9_uniqueId_normalization_witness :
    differOnlyInCaseOrPunct "SN-123A" "sn.123a" = true ∧
    uniqueId (some "SN-123A") "AA:BB:CC:DD:EE:FF"
      = uniqueId (some "sn.123a") "11:22:33:44:55:66" :=
  ⟨by decide,
   C9_uniqueId_normalization.2.2.2 "SN-123A" "sn.123a"
     "AA:BB:CC:DD:EE:FF" "11:22:33:44:55:66" (by decide)⟩

/-- C10. `ftms_connect` raises
`ConfigEntryNotReady(translation_key="connection_failed")` carrying the
device address exactly when the underlying connect raises a
`BleakError`; every `BleakError` — including one whose message contains
`BleakCharacteristicNotFoundError` — fails this way with no soft
downgrade, while any non-Bleak exception propagates unchanged. -/
theorem C10_ftms_connect_spec :
    (∀ (o : FtmsConnectOutcome) (addr : String),
      ftms_connect o addr = .notReady "connection_failed" addr ↔
        ∃ m, o = FtmsConnectOutcome.bleakError m) ∧
    (∀ addr : String,
      ftms_connect
        (.bleakError "exc BleakCharacteristicNotFoundError raised") addr
        = .notReady "connection_failed" addr) ∧
    (∀ (m addr : String),
      ftms_connect (.otherError m) addr = .raised m) := by
  refine ⟨?_, fun addr => rfl, fun m addr => rfl⟩
  intro o addr
  cases o <;> simp [ftms_connect]

end Ftms
